import Mathlib

/-!
Shallow embedding of the register-access and
address-validation layer (`src/memset.rs`, `src/arch.rs`).

Machine integers: `usize` on the RV64 target is modelled as `Nat`; where a
bound matters it appears as an explicit hypothesis `< 2 ^ 64`.  The
`csrr`/`csrw` instructions are modelled by explicit state passing over a
register file `RegFile : Nat → Nat` mapping a CSR address to its current
word.  The `$val as usize` cast inside the `write_csr!` macro is the
identity on its operands (every call site already passes a `usize`), so it
is not repeated in the model.  The `tp`/`ra` general-purpose register
helpers and `sfence.vma` are pure assembly with no CSR-file effect and are
outside this model.

`write_pmpaddr0` (src/arch.rs lines 708-710) is not embedded: its body is
`write_csr!(PMPADDR0, addr.get())` while its parameter is named `val`, so
the identifier `addr` is unresolved and the function does not compile as
written; every sibling writer names its parameter `addr` and the body was
evidently not updated after a rename.  Likewise `write_stimecmp` uses the
type `TimerCompareValue`, which `arch.rs` never imports (only
`ValidAddress` is imported from `memset`); the function body itself is
well-formed, so it is embedded with the import slip noted here.
-/

namespace Acorn

/-! ### src/memset.rs -/

def KERNEL_BASE_ADDRESS : Nat := 0x80000000

def PHYSICAL_MEMORY_LIMIT : Nat := KERNEL_BASE_ADDRESS + 128 * 1024 * 1024

structure ValidAddress where
  val : Nat
  deriving DecidableEq

/-- Function `ValidAddress::new`: range check against `[KERNEL_BASE_ADDRESS, PHYSICAL_MEMORY_LIMIT)`. -/
def ValidAddress.new (addr : Nat) : Except String ValidAddress :=
  if addr ≥ KERNEL_BASE_ADDRESS ∧ addr < PHYSICAL_MEMORY_LIMIT then
    Except.ok { val := addr }
  else
    Except.error "Invalid memory address"

def ValidAddress.get (self : ValidAddress) : Nat :=
  self.val

structure TimerCompareValue where
  val : Nat
  deriving DecidableEq

/-- Constant `usize::MAX` on the 64-bit target. -/
def usizeMAX : Nat := 2 ^ 64 - 1

/-- Function `TimerCompareValue::new`: the check `val <= usize::MAX` spans the whole
representable domain. -/
def TimerCompareValue.new (val : Nat) : Except String TimerCompareValue :=
  if val ≤ usizeMAX then
    Except.ok { val := val }
  else
    Except.error "Invalid timer compare value"

def TimerCompareValue.get (self : TimerCompareValue) : Nat :=
  self.val

/-! ### src/arch.rs — CSR addresses -/

def MHARTID : Nat := 0xf14

def MSTATUS : Nat := 0x300

def MEDELEG : Nat := 0x302

def MIDELEG : Nat := 0x303

def MIE : Nat := 0x304

def MCOUNTEREN : Nat := 0x306

def MENVCFG : Nat := 0x30A

def MEPC : Nat := 0x341

def MCYCLE : Nat := 0xB00

def SSTATUS : Nat := 0x100

def SIE : Nat := 0x104

def STVEC : Nat := 0x105

def SEPC : Nat := 0x141

def SCAUSE : Nat := 0x142

def STVAL : Nat := 0x143

def SIP : Nat := 0x144

def SATP : Nat := 0x180

def STIMECMP : Nat := 0x14d

def PMPCFG0 : Nat := 0x3A0

def PMPADDR0 : Nat := 0x3B0

/-! ### The register primitive (`read_csr!` / `write_csr!`) -/

/-- The CSR file of the hart: one machine word per CSR address. -/
def RegFile : Type := Nat → Nat

/-- Macro `write_csr!($csr, $val)`: commit `val` to CSR `csr`, fully replacing its
value; every other CSR keeps its word. -/
def write_csr (csr : Nat) (val : Nat) (rf : RegFile) : RegFile :=
  fun r => if r = csr then val else rf r

/-- Macro `read_csr!($csr)`: read the current word of CSR `csr`. -/
def read_csr (csr : Nat) (rf : RegFile) : Nat :=
  rf csr

def read_mhartid (rf : RegFile) : Nat :=
  read_csr MHARTID rf

/-! ### Machine status register (MSTATUS) -/

class MStatusField (α : Type) where
  to_usize : α → Nat

def MPP_MASK : Nat := 0b11 <<< 11

inductive PrivilegeMode
  | UMV
  | SMV
  | MMV
  deriving DecidableEq

def PrivilegeMode.to_usize : PrivilegeMode → Nat
  | .UMV => 0b00 <<< 11
  | .SMV => 0b01 <<< 11
  | .MMV => 0b11 <<< 11

instance mStatusFieldPrivilegeMode : MStatusField PrivilegeMode :=
  ⟨PrivilegeMode.to_usize⟩

inductive InterruptEnable
  | UIE
  | SIE
  | MIE
  deriving DecidableEq

def InterruptEnable.to_usize : InterruptEnable → Nat
  | .UIE => 1 <<< 0
  | .SIE => 1 <<< 1
  | .MIE => 1 <<< 3

instance mStatusFieldInterruptEnable : MStatusField InterruptEnable :=
  ⟨InterruptEnable.to_usize⟩

inductive PreviousInterruptEnable
  | UPIE
  | SPIE
  | MPIE
  deriving DecidableEq

def PreviousInterruptEnable.to_usize : PreviousInterruptEnable → Nat
  | .UPIE => 1 <<< 4
  | .SPIE => 1 <<< 5
  | .MPIE => 1 <<< 7

instance mStatusFieldPreviousInterruptEnable : MStatusField PreviousInterruptEnable :=
  ⟨PreviousInterruptEnable.to_usize⟩

inductive FloatingPointStatus
  | OFF
  | INITIAL
  | CLEAN
  | DIRTY
  deriving DecidableEq

def FloatingPointStatus.to_usize : FloatingPointStatus → Nat
  | .OFF => 0b00 <<< 13
  | .INITIAL => 0b01 <<< 13
  | .CLEAN => 0b10 <<< 13
  | .DIRTY => 0b11 <<< 13

instance mStatusFieldFloatingPointStatus : MStatusField FloatingPointStatus :=
  ⟨FloatingPointStatus.to_usize⟩

inductive ExtensionStatus
  | OFF
  | INITIAL
  | CLEAN
  | DIRTY
  deriving DecidableEq

def ExtensionStatus.to_usize : ExtensionStatus → Nat
  | .OFF => 0b00 <<< 15
  | .INITIAL => 0b01 <<< 15
  | .CLEAN => 0b10 <<< 15
  | .DIRTY => 0b11 <<< 15

instance mStatusFieldExtensionStatus : MStatusField ExtensionStatus :=
  ⟨ExtensionStatus.to_usize⟩

inductive AdditionalStatus
  | MPRV
  | SUM
  | MXR
  | TVM
  | TW
  | TSR
  deriving DecidableEq

def AdditionalStatus.to_usize : AdditionalStatus → Nat
  | .MPRV => 1 <<< 17
  | .SUM => 1 <<< 18
  | .MXR => 1 <<< 19
  | .TVM => 1 <<< 20
  | .TW => 1 <<< 21
  | .TSR => 1 <<< 22

instance mStatusFieldAdditionalStatus : MStatusField AdditionalStatus :=
  ⟨AdditionalStatus.to_usize⟩

def read_mstatus (rf : RegFile) : Nat :=
  read_csr MSTATUS rf

def write_mstatus {α : Type} [MStatusField α] (val : α) (rf : RegFile) : RegFile :=
  write_csr MSTATUS (MStatusField.to_usize val) rf

/-! ### Machine exception delegation (MEDELEG) -/

class MedelegField (α : Type) where
  to_usize : α → Nat

inductive MedelegVal
  | InstructionAddressMisaligned
  | InstructionAccessFault
  | IllegalInstruction
  | Breakpoint
  | LoadAddressMisaligned
  | LoadAccessFault
  | StoreAddressMisaligned
  | StoreAccessFault
  | EnvironmentCallFromUMode
  | EnvironmentCallFromSMode
  | InstructionPageFault
  | LoadPageFault
  | StorePageFault
  deriving DecidableEq

def MedelegVal.to_usize : MedelegVal → Nat
  | .InstructionAddressMisaligned => 0b01 <<< 0
  | .InstructionAccessFault => 0b01 <<< 1
  | .IllegalInstruction => 0b01 <<< 2
  | .Breakpoint => 0b01 <<< 3
  | .LoadAddressMisaligned => 0b01 <<< 4
  | .LoadAccessFault => 0b01 <<< 5
  | .StoreAddressMisaligned => 0b01 <<< 6
  | .StoreAccessFault => 0b01 <<< 7
  | .EnvironmentCallFromUMode => 0b01 <<< 8
  | .EnvironmentCallFromSMode => 0b01 <<< 9
  | .InstructionPageFault => 0b01 <<< 12
  | .LoadPageFault => 0b01 <<< 13
  | .StorePageFault => 0b01 <<< 15

instance medelegFieldMedelegVal : MedelegField MedelegVal :=
  ⟨MedelegVal.to_usize⟩

def read_medeleg (rf : RegFile) : Nat :=
  read_csr MEDELEG rf

def write_medeleg {α : Type} [MedelegField α] (val : α) (rf : RegFile) : RegFile :=
  write_csr MEDELEG (MedelegField.to_usize val) rf

/-! ### Machine interrupt delegation (MIDELEG) -/

class MidelegField (α : Type) where
  to_usize : α → Nat

inductive MidelegVal
  | SSIE
  | STIE
  | SEIE
  deriving DecidableEq

def MidelegVal.to_usize : MidelegVal → Nat
  | .SSIE => 1 <<< 1
  | .STIE => 1 <<< 5
  | .SEIE => 1 <<< 9

instance midelegFieldMidelegVal : MidelegField MidelegVal :=
  ⟨MidelegVal.to_usize⟩

def read_mideleg (rf : RegFile) : Nat :=
  read_csr MIDELEG rf

def write_mideleg {α : Type} [MidelegField α] (val : α) (rf : RegFile) : RegFile :=
  write_csr MIDELEG (MidelegField.to_usize val) rf

/-! ### Machine interrupt enable (MIE) -/

class MieField (α : Type) where
  to_usize : α → Nat

inductive MieVal
  | MSIE
  | MTIE
  | MEIE
  | SSIE
  | STIE
  | SEIE
  deriving DecidableEq

def MieVal.to_usize : MieVal → Nat
  | .MSIE => 0b01 <<< 3
  | .MTIE => 0b01 <<< 7
  | .MEIE => 0b01 <<< 11
  | .SSIE => 0b01 <<< 1
  | .STIE => 0b01 <<< 5
  | .SEIE => 0b01 <<< 9

instance mieFieldMieVal : MieField MieVal :=
  ⟨MieVal.to_usize⟩

def read_mie (rf : RegFile) : Nat :=
  read_csr MIE rf

def write_mie {α : Type} [MieField α] (val : α) (rf : RegFile) : RegFile :=
  write_csr MIE (MieField.to_usize val) rf

/-! ### Machine-mode counter enable (MCOUNTEREN) -/

class MCounterenField (α : Type) where
  to_usize : α → Nat

inductive MCounterenVal
  | CY
  | TM
  | IR
  | HPM3
  | HPM4
  | HPM5
  | HPM6
  | HPM7
  | HPM8
  | HPM9
  | HPM10
  | HPM11
  | HPM12
  | HPM13
  | HPM14
  | HPM15
  | HPM16
  | HPM17
  | HPM18
  | HPM19
  | HPM20
  | HPM21
  | HPM22
  | HPM23
  | HPM24
  | HPM25
  | HPM26
  | HPM27
  | HPM28
  | HPM29
  | HPM30
  | HPM31
  deriving DecidableEq

def MCounterenVal.to_usize : MCounterenVal → Nat
  | .CY => 0b01 <<< 0
  | .TM => 0b01 <<< 1
  | .IR => 0b01 <<< 2
  | .HPM3 => 0b01 <<< 3
  | .HPM4 => 0b01 <<< 4
  | .HPM5 => 0b01 <<< 5
  | .HPM6 => 0b01 <<< 6
  | .HPM7 => 0b01 <<< 7
  | .HPM8 => 0b01 <<< 8
  | .HPM9 => 0b01 <<< 9
  | .HPM10 => 0b01 <<< 10
  | .HPM11 => 0b01 <<< 11
  | .HPM12 => 0b01 <<< 12
  | .HPM13 => 0b01 <<< 13
  | .HPM14 => 0b01 <<< 14
  | .HPM15 => 0b01 <<< 15
  | .HPM16 => 0b01 <<< 16
  | .HPM17 => 0b01 <<< 17
  | .HPM18 => 0b01 <<< 18
  | .HPM19 => 0b01 <<< 19
  | .HPM20 => 0b01 <<< 20
  | .HPM21 => 0b01 <<< 21
  | .HPM22 => 0b01 <<< 22
  | .HPM23 => 0b01 <<< 23
  | .HPM24 => 0b01 <<< 24
  | .HPM25 => 0b01 <<< 25
  | .HPM26 => 0b01 <<< 26
  | .HPM27 => 0b01 <<< 27
  | .HPM28 => 0b01 <<< 28
  | .HPM29 => 0b01 <<< 29
  | .HPM30 => 0b01 <<< 30
  | .HPM31 => 0b01 <<< 31

instance mCounterenFieldMCounterenVal : MCounterenField MCounterenVal :=
  ⟨MCounterenVal.to_usize⟩

def read_mcounteren (rf : RegFile) : Nat :=
  read_csr MCOUNTEREN rf

def write_mcounteren {α : Type} [MCounterenField α] (val : α) (rf : RegFile) : RegFile :=
  write_csr MCOUNTEREN (MCounterenField.to_usize val) rf

/-! ### Machine environment configuration (MENVCFG) -/

class MenvcfgField (α : Type) where
  to_usize : α → Nat

inductive MenvcfgVal
  | FIOM
  | CBIE
  | CBZE
  | PMA
  | PMA1
  | PMA2
  | PMA3
  | PMA4
  | PMA5
  | PMA6
  | PMA7
  | PMA8
  | PMA9
  | PMA10
  | PMA11
  | PMA12
  | PMA13
  | PMA14
  | PMA15
  deriving DecidableEq

def MenvcfgVal.to_usize : MenvcfgVal → Nat
  | .FIOM => 1 <<< 0
  | .CBIE => 1 <<< 1
  | .CBZE => 1 <<< 2
  | .PMA => 1 <<< 3
  | .PMA1 => 1 <<< 4
  | .PMA2 => 1 <<< 5
  | .PMA3 => 1 <<< 6
  | .PMA4 => 1 <<< 7
  | .PMA5 => 1 <<< 8
  | .PMA6 => 1 <<< 9
  | .PMA7 => 1 <<< 10
  | .PMA8 => 1 <<< 11
  | .PMA9 => 1 <<< 12
  | .PMA10 => 1 <<< 13
  | .PMA11 => 1 <<< 14
  | .PMA12 => 1 <<< 15
  | .PMA13 => 1 <<< 16
  | .PMA14 => 1 <<< 17
  | .PMA15 => 1 <<< 18

instance menvcfgFieldMenvcfgVal : MenvcfgField MenvcfgVal :=
  ⟨MenvcfgVal.to_usize⟩

def read_menvcfg (rf : RegFile) : Nat :=
  read_csr MENVCFG rf

def write_menvcfg {α : Type} [MenvcfgField α] (val : α) (rf : RegFile) : RegFile :=
  write_csr MENVCFG (MenvcfgField.to_usize val) rf

/-! ### Machine exception program counter (MEPC) -/

def read_mepc (rf : RegFile) : Nat :=
  read_csr MEPC rf

def write_mepc (addr : ValidAddress) (rf : RegFile) : RegFile :=
  write_csr MEPC addr.get rf

def read_mcycle (rf : RegFile) : Nat :=
  read_csr MCYCLE rf

/-! ### Supervisor status register (SSTATUS) -/

class SStatusField (α : Type) where
  to_usize : α → Nat

inductive PrivilegeModeSStatus
  | SPP
  deriving DecidableEq

def PrivilegeModeSStatus.to_usize : PrivilegeModeSStatus → Nat
  | .SPP => 0b01 <<< 8

instance sStatusFieldPrivilegeModeSStatus : SStatusField PrivilegeModeSStatus :=
  ⟨PrivilegeModeSStatus.to_usize⟩

inductive InterruptEnableSStatus
  | UIE
  | SIE
  deriving DecidableEq

def InterruptEnableSStatus.to_usize : InterruptEnableSStatus → Nat
  | .UIE => 0b01 <<< 0
  | .SIE => 0b01 <<< 1

instance sStatusFieldInterruptEnableSStatus : SStatusField InterruptEnableSStatus :=
  ⟨InterruptEnableSStatus.to_usize⟩

inductive PreviousInterruptEnableSStatus
  | UPIE
  | SPIE
  deriving DecidableEq

def PreviousInterruptEnableSStatus.to_usize : PreviousInterruptEnableSStatus → Nat
  | .UPIE => 0b01 <<< 4
  | .SPIE => 0b01 <<< 5

instance sStatusFieldPreviousInterruptEnableSStatus : SStatusField PreviousInterruptEnableSStatus :=
  ⟨PreviousInterruptEnableSStatus.to_usize⟩

def read_sstatus (rf : RegFile) : Nat :=
  read_csr SSTATUS rf

def write_sstatus {α : Type} [SStatusField α] (val : α) (rf : RegFile) : RegFile :=
  write_csr SSTATUS (SStatusField.to_usize val) rf

/-! ### Supervisor interrupt enable (SIE) -/

class SieField (α : Type) where
  to_usize : α → Nat

inductive SieVal
  | SSIE
  | STIE
  | SEIE
  deriving DecidableEq

def SieVal.to_usize : SieVal → Nat
  | .SSIE => 1 <<< 1
  | .STIE => 1 <<< 5
  | .SEIE => 1 <<< 9

instance sieFieldSieVal : SieField SieVal :=
  ⟨SieVal.to_usize⟩

def read_sie (rf : RegFile) : Nat :=
  read_csr SIE rf

def write_sie {α : Type} [SieField α] (val : α) (rf : RegFile) : RegFile :=
  write_csr SIE (SieField.to_usize val) rf

/-! ### Supervisor trap-vector base address (STVEC) -/

def read_stvec (rf : RegFile) : Nat :=
  read_csr STVEC rf

def write_stvec (addr : ValidAddress) (rf : RegFile) : RegFile :=
  write_csr STVEC addr.get rf

/-! ### Supervisor exception program counter (SEPC) -/

def read_sepc (rf : RegFile) : Nat :=
  read_csr SEPC rf

def write_sepc (addr : ValidAddress) (rf : RegFile) : RegFile :=
  write_csr SEPC addr.get rf

/-! ### Supervisor trap cause (SCAUSE) -/

class ScauseField (α : Type) where
  to_usize : α → Nat

inductive ScauseVal
  | InstructionAddressMisaligned
  | InstructionAccessFault
  | IllegalInstruction
  | Breakpoint
  | LoadAddressMisaligned
  | LoadAccessFault
  | StoreAddressMisaligned
  | StoreAccessFault
  | EnvironmentCallFromUMode
  | EnvironmentCallFromSMode
  | InstructionPageFault
  | LoadPageFault
  | StorePageFault
  | UserSoftwareInterrupt
  | SupervisorSoftwareInterrupt
  | UserTimerInterrupt
  | SupervisorTimerInterrupt
  | UserExternalInterrupt
  | SupervisorExternalInterrupt
  deriving DecidableEq

def ScauseVal.to_usize : ScauseVal → Nat
  | .InstructionAddressMisaligned => 0
  | .InstructionAccessFault => 1
  | .IllegalInstruction => 2
  | .Breakpoint => 3
  | .LoadAddressMisaligned => 4
  | .LoadAccessFault => 5
  | .StoreAddressMisaligned => 6
  | .StoreAccessFault => 7
  | .EnvironmentCallFromUMode => 8
  | .EnvironmentCallFromSMode => 9
  | .InstructionPageFault => 12
  | .LoadPageFault => 13
  | .StorePageFault => 15
  | .UserSoftwareInterrupt => 0x8000000000000000 ||| 0
  | .SupervisorSoftwareInterrupt => 0x8000000000000000 ||| 1
  | .UserTimerInterrupt => 0x8000000000000000 ||| 4
  | .SupervisorTimerInterrupt => 0x8000000000000000 ||| 5
  | .UserExternalInterrupt => 0x8000000000000000 ||| 8
  | .SupervisorExternalInterrupt => 0x8000000000000000 ||| 9

/-- Constructor grouping taken from the comment structure of the source: the
first thirteen constructors sit under `// Exception codes`, the last six
under `// Interrupt codes (bit 63 set to 1)`. -/
def ScauseVal.isInterrupt : ScauseVal → Bool
  | .UserSoftwareInterrupt => true
  | .SupervisorSoftwareInterrupt => true
  | .UserTimerInterrupt => true
  | .SupervisorTimerInterrupt => true
  | .UserExternalInterrupt => true
  | .SupervisorExternalInterrupt => true
  | _ => false

instance scauseFieldScauseVal : ScauseField ScauseVal :=
  ⟨ScauseVal.to_usize⟩

def read_scause (rf : RegFile) : Nat :=
  read_csr SCAUSE rf

def write_scause {α : Type} [ScauseField α] (val : α) (rf : RegFile) : RegFile :=
  write_csr SCAUSE (ScauseField.to_usize val) rf

/-! ### Supervisor trap value (STVAL) -/

def read_stval (rf : RegFile) : Nat :=
  read_csr STVAL rf

def write_stval (addr : ValidAddress) (rf : RegFile) : RegFile :=
  write_csr STVAL addr.get rf

/-! ### Supervisor interrupt pending (SIP)

`SipVal` is declared in the source but no `impl SipField for SipVal`
exists, so `write_sip` has no callable instantiation; the class and the
enum are embedded unconnected, exactly as in the source. -/

class SipField (α : Type) where
  to_usize : α → Nat

inductive SipVal
  | SSIP
  | STIP
  | SEIP
  deriving DecidableEq

def SipVal.to_usize : SipVal → Nat
  | .SSIP => 0b01 <<< 1
  | .STIP => 0b01 <<< 5
  | .SEIP => 0b01 <<< 9

def read_sip (rf : RegFile) : Nat :=
  read_csr SIP rf

def write_sip {α : Type} [SipField α] (val : α) (rf : RegFile) : RegFile :=
  write_csr SIP (SipField.to_usize val) rf

/-! ### Supervisor address translation and protection (SATP) -/

class SatpField (α : Type) where
  to_usize : α → Nat

inductive SatpMode
  | Bare
  | Sv39
  | Sv48
  deriving DecidableEq

def SatpMode.to_usize : SatpMode → Nat
  | .Bare => 0
  | .Sv39 => 8 <<< 60
  | .Sv48 => 9 <<< 60

instance satpFieldSatpMode : SatpField SatpMode :=
  ⟨SatpMode.to_usize⟩

/-- Function `make_satp`: compose an SATP value from a page-table base address and a
translation mode. -/
def make_satp {α : Type} [SatpField α] (pagetable : Nat) (mode : α) : Nat :=
  SatpField.to_usize mode ||| (pagetable >>> 12)

def read_satp (rf : RegFile) : Nat :=
  read_csr SATP rf

def write_satp (val : Nat) (rf : RegFile) : RegFile :=
  write_csr SATP val rf

/-! ### Supervisor timer comparison (STIMECMP) -/

def read_stimecmp (rf : RegFile) : Nat :=
  read_csr STIMECMP rf

def write_stimecmp (val : TimerCompareValue) (rf : RegFile) : RegFile :=
  write_csr STIMECMP val.get rf

/-! ### Physical memory protection (PMPCFG0 / PMPADDR0) -/

class PmpcfgField (α : Type) where
  to_usize : α → Nat

inductive PmpcfgVal
  | R
  | W
  | X
  | A
  | L
  deriving DecidableEq

def PmpcfgVal.to_usize : PmpcfgVal → Nat
  | .R => 1 <<< 0
  | .W => 1 <<< 1
  | .X => 1 <<< 2
  | .A => 1 <<< 3
  | .L => 1 <<< 7

instance pmpcfgFieldPmpcfgVal : PmpcfgField PmpcfgVal :=
  ⟨PmpcfgVal.to_usize⟩

def read_pmpcfg0 (rf : RegFile) : Nat :=
  read_csr PMPCFG0 rf

def write_pmpcfg0 {α : Type} [PmpcfgField α] (val : α) (rf : RegFile) : RegFile :=
  write_csr PMPCFG0 (PmpcfgField.to_usize val) rf

def read_pmpaddr0 (rf : RegFile) : Nat :=
  read_csr PMPADDR0 rf

/-! ### The boot privilege-transition sequencer -/

/-- Modelled from the spec: the states of the Privilege-Transition
Sequencer, a linear state machine
`Reset → HartIdentified → StatusConfigured → DelegationConfigured →
EntryPointSet → SupervisorMode`, plus the fatal `Halted` outcome a
validator failure produces.  The sequencer itself lives in `start.rs`,
which `src/main.rs` declares (`mod start`) and `entry.rs` jumps to, but
which is not among the given source files. -/
inductive SeqState
  | Reset
  | HartIdentified
  | StatusConfigured
  | DelegationConfigured
  | EntryPointSet
  | SupervisorMode
  | Halted
  deriving DecidableEq

/-- One simulated hart: its id, its sequencer state, and its CSR file. -/
structure Hart where
  hartid : Nat
  seq : SeqState
  regs : RegFile

/-- Modelled from the spec: one invocation of the boot Privilege-Transition
Sequencer (`start.rs`, absent from the given sources).  Per the spec it
runs exactly once per hart at boot: a single-shot precondition guard
rejects any invocation on a hart that is not in the `Reset` state.  One
accepted invocation performs the whole linear sequence — configure status
(previous-privilege supervisor, previous-interrupt-enable), configure
delegation, set the entry point from a `ValidAddress` — and ends in
`SupervisorMode`; a validator failure is fatal and halts the hart, with no
retry (the halted hart is no longer in `Reset`, so the guard also rejects
any later invocation). -/
def bootSequencer (hart : Hart) (entry : Nat) : Except String Hart :=
  if hart.seq = SeqState.Reset then
    match ValidAddress.new entry with
    | Except.ok a =>
        let rf0 := write_mstatus PrivilegeMode.SMV hart.regs
        let rf1 := write_mstatus PreviousInterruptEnable.SPIE rf0
        let rf2 := write_medeleg MedelegVal.EnvironmentCallFromUMode rf1
        let rf3 := write_mideleg MidelegVal.SSIE rf2
        let rf4 := write_mepc a rf3
        Except.ok { hart with seq := SeqState.SupervisorMode, regs := rf4 }
    | Except.error _ =>
        Except.ok { hart with seq := SeqState.Halted }
  else
    Except.error "boot sequencer already run on this hart"

/-! ## Theorems -/

/-- C1: `ValidAddress::new addr` succeeds exactly when `addr` lies in
`[KERNEL_BASE_ADDRESS, KERNEL_BASE_ADDRESS + 128 MiB) = [0x80000000, 0x88000000)`;
on success `get` round-trips `addr` unchanged (never clamped), and for
every `addr` outside that half-open range — including `0` and the upper
bound `0x88000000` itself — construction returns the error. -/
theorem validAddress_new_range (addr : Nat) :
    KERNEL_BASE_ADDRESS = 0x80000000 ∧
    PHYSICAL_MEMORY_LIMIT = 0x88000000 ∧
    (0x80000000 ≤ addr ∧ addr < 0x88000000 →
      ValidAddress.new addr = Except.ok { val := addr } ∧
      (ValidAddress.mk addr).get = addr) ∧
    (addr < 0x80000000 ∨ 0x88000000 ≤ addr →
      ValidAddress.new addr = Except.error "Invalid memory address") := by
  have hb : KERNEL_BASE_ADDRESS = 0x80000000 := rfl
  have hl : PHYSICAL_MEMORY_LIMIT = 0x88000000 := by decide
  refine ⟨hb, hl, ?_, ?_⟩
  · intro h
    refine ⟨?_, rfl⟩
    unfold ValidAddress.new
    rw [hb, hl, if_pos ⟨h.1, h.2⟩]
  · intro h
    unfold ValidAddress.new
    rw [hb, hl, if_neg (by omega)]

theorem validAddress_new_range_witness :
    ValidAddress.new 0x80000000 = Except.ok { val := 0x80000000 } ∧
    ValidAddress.new 0x7FFFFFFF = Except.error "Invalid memory address" ∧
    ValidAddress.new 0x88000000 = Except.error "Invalid memory address" ∧
    ValidAddress.new 0 = Except.error "Invalid memory address" :=
  ⟨((validAddress_new_range 0x80000000).2.2.1 (by omega)).1,
   (validAddress_new_range 0x7FFFFFFF).2.2.2 (by omega),
   (validAddress_new_range 0x88000000).2.2.2 (by omega),
   (validAddress_new_range 0).2.2.2 (by omega)⟩

/-- C6: `TimerCompareValue::new` always succeeds: the `val <= usize::MAX`
check holds for every usize `val`, so the error branch is unreachable and
`get` round-trips `val`. -/
theorem timerCompareValue_new_total (val : Nat) (h : val < 2 ^ 64) :
    TimerCompareValue.new val = Except.ok { val := val } ∧
    (TimerCompareValue.mk val).get = val := by
  have hmax : usizeMAX = 18446744073709551615 := by decide
  have h64 : (2 : Nat) ^ 64 = 18446744073709551616 := by norm_num
  refine ⟨?_, rfl⟩
  unfold TimerCompareValue.new
  rw [if_pos (by omega : val ≤ usizeMAX)]

theorem timerCompareValue_new_total_witness :
    TimerCompareValue.new 42 = Except.ok { val := 42 } ∧
    (TimerCompareValue.mk 42).get = 42 :=
  timerCompareValue_new_total 42 (by norm_num)

/-- C3 (supporting theorem): each validated-wrapper writer that compiles
commits exactly the wrapped raw value of its own argument to its register.
`write_pmpaddr0` is excluded: its body references the unresolved
identifier `addr` while its parameter is named `val`, so it does not
compile as written (see the header note). -/
theorem validated_writers_commit_argument (a : ValidAddress)
    (t : TimerCompareValue) (rf : RegFile) :
    read_mepc (write_mepc a rf) = a.get ∧
    read_stvec (write_stvec a rf) = a.get ∧
    read_sepc (write_sepc a rf) = a.get ∧
    read_stval (write_stval a rf) = a.get ∧
    read_stimecmp (write_stimecmp t rf) = t.get := by
  refine ⟨?_, ?_, ?_, ?_, ?_⟩ <;>
    simp [read_mepc, write_mepc, read_stvec, write_stvec, read_sepc,
      write_sepc, read_stval, write_stval, read_stimecmp, write_stimecmp,
      read_csr, write_csr]

/-- C4: every field-typed register writer fully replaces the register
value: for each register family and each variant `v`, after the write the
register holds exactly the pre-shifted bit pattern `to_usize v`,
independent of the prior register-file contents `rf`.  (`SipVal` has no
`SipField` instance in the source, so `write_sip` has no callable
variants and no conjunct.) -/
theorem field_typed_writers_replace :
    (∀ (v : PrivilegeMode) (rf : RegFile),
      read_mstatus (write_mstatus v rf) = MStatusField.to_usize v) ∧
    (∀ (v : InterruptEnable) (rf : RegFile),
      read_mstatus (write_mstatus v rf) = MStatusField.to_usize v) ∧
    (∀ (v : PreviousInterruptEnable) (rf : RegFile),
      read_mstatus (write_mstatus v rf) = MStatusField.to_usize v) ∧
    (∀ (v : FloatingPointStatus) (rf : RegFile),
      read_mstatus (write_mstatus v rf) = MStatusField.to_usize v) ∧
    (∀ (v : ExtensionStatus) (rf : RegFile),
      read_mstatus (write_mstatus v rf) = MStatusField.to_usize v) ∧
    (∀ (v : AdditionalStatus) (rf : RegFile),
      read_mstatus (write_mstatus v rf) = MStatusField.to_usize v) ∧
    (∀ (v : MedelegVal) (rf : RegFile),
      read_medeleg (write_medeleg v rf) = MedelegField.to_usize v) ∧
    (∀ (v : MidelegVal) (rf : RegFile),
      read_mideleg (write_mideleg v rf) = MidelegField.to_usize v) ∧
    (∀ (v : MieVal) (rf : RegFile),
      read_mie (write_mie v rf) = MieField.to_usize v) ∧
    (∀ (v : MCounterenVal) (rf : RegFile),
      read_mcounteren (write_mcounteren v rf) = MCounterenField.to_usize v) ∧
    (∀ (v : MenvcfgVal) (rf : RegFile),
      read_menvcfg (write_menvcfg v rf) = MenvcfgField.to_usize v) ∧
    (∀ (v : PrivilegeModeSStatus) (rf : RegFile),
      read_sstatus (write_sstatus v rf) = SStatusField.to_usize v) ∧
    (∀ (v : InterruptEnableSStatus) (rf : RegFile),
      read_sstatus (write_sstatus v rf) = SStatusField.to_usize v) ∧
    (∀ (v : PreviousInterruptEnableSStatus) (rf : RegFile),
      read_sstatus (write_sstatus v rf) = SStatusField.to_usize v) ∧
    (∀ (v : SieVal) (rf : RegFile),
      read_sie (write_sie v rf) = SieField.to_usize v) ∧
    (∀ (v : ScauseVal) (rf : RegFile),
      read_scause (write_scause v rf) = ScauseField.to_usize v) ∧
    (∀ (v : PmpcfgVal) (rf : RegFile),
      read_pmpcfg0 (write_pmpcfg0 v rf) = PmpcfgField.to_usize v) := by
  repeat' apply And.intro
  all_goals intro v rf
  all_goals
    simp [read_mstatus, write_mstatus, read_medeleg, write_medeleg,
      read_mideleg, write_mideleg, read_mie, write_mie, read_mcounteren,
      write_mcounteren, read_menvcfg, write_menvcfg, read_sstatus,
      write_sstatus, read_sie, write_sie, read_scause, write_scause,
      read_pmpcfg0, write_pmpcfg0, read_csr, write_csr]

/-- C5: delegation round-trip over the register-file model: writing any
medeleg (resp. mideleg) variant and reading the register back with no
intervening write yields exactly the written bit pattern. -/
theorem delegation_roundtrip :
    (∀ (v : MedelegVal) (rf : RegFile),
      read_medeleg (write_medeleg v rf) = MedelegField.to_usize v) ∧
    (∀ (v : MidelegVal) (rf : RegFile),
      read_mideleg (write_mideleg v rf) = MidelegField.to_usize v) := by
  constructor <;> intro v rf <;>
    simp [read_medeleg, write_medeleg, read_mideleg, write_mideleg,
      read_csr, write_csr]

/-- C8: the trap-cause variant set is partitioned by the top bit (bit 63
of the 64-bit word): every exception variant has numeric value in
`0..=15` with bit 63 clear, and every interrupt variant has bit 63 set. -/
theorem scause_partition_top_bit (v : ScauseVal) :
    if v.isInterrupt then
      (ScauseField.to_usize v).testBit 63 = true
    else
      ScauseField.to_usize v ≤ 15 ∧ (ScauseField.to_usize v).testBit 63 = false := by
  cases v <;> decide

/-- C10: the frame property of the register primitive: a CSR write
modifies only its own register, so every field-typed writer (all of which
reduce to one `write_csr`) leaves every other CSR unchanged; in
particular `write_mstatus` leaves MEDELEG, MIDELEG, MIE and SATP at their
prior values. -/
theorem write_csr_frame :
    (∀ (csr val : Nat) (rf : RegFile) (q : Nat), q ≠ csr →
      write_csr csr val rf q = rf q) ∧
    (∀ (α : Type) [MStatusField α] (v : α) (rf : RegFile) (q : Nat),
      q ≠ MSTATUS → read_csr q (write_mstatus v rf) = read_csr q rf) ∧
    (∀ (α : Type) [MStatusField α] (v : α) (rf : RegFile),
      read_medeleg (write_mstatus v rf) = read_medeleg rf ∧
      read_mideleg (write_mstatus v rf) = read_mideleg rf ∧
      read_mie (write_mstatus v rf) = read_mie rf ∧
      read_satp (write_mstatus v rf) = read_satp rf) := by
  have base : ∀ (csr val : Nat) (rf : RegFile) (q : Nat), q ≠ csr →
      write_csr csr val rf q = rf q := by
    intro csr val rf q h
    unfold write_csr
    rw [if_neg h]
  refine ⟨base, ?_, ?_⟩
  · intro α _ v rf q h
    exact base MSTATUS _ rf q h
  · intro α _ v rf
    exact ⟨base MSTATUS (MStatusField.to_usize v) rf MEDELEG (by decide),
      base MSTATUS (MStatusField.to_usize v) rf MIDELEG (by decide),
      base MSTATUS (MStatusField.to_usize v) rf MIE (by decide),
      base MSTATUS (MStatusField.to_usize v) rf SATP (by decide)⟩

theorem write_csr_frame_witness :
    write_csr MSTATUS 1 (fun _ => 0) MEDELEG = (fun _ => 0 : RegFile) MEDELEG :=
  write_csr_frame.1 MSTATUS 1 (fun _ => 0) MEDELEG (by decide)

/-! ### Bit-level helpers for the SATP layout -/

/-- Every SATP mode tag has all bits below position 60 clear. -/
theorem satpMode_testBit_low (m : SatpMode) (i : Nat) (hi : i < 60) :
    (SatpField.to_usize m).testBit i = false := by
  have h60 : ¬ i ≥ 60 := by omega
  cases m
  · exact Nat.zero_testBit i
  · show Nat.testBit (8 <<< 60) i = false
    rw [Nat.testBit_shiftLeft]
    simp [h60]
  · show Nat.testBit (9 <<< 60) i = false
    rw [Nat.testBit_shiftLeft]
    simp [h60]

theorem testBit_false_of_lt_of_le (x i j : Nat) (hx : x < 2 ^ i) (hij : i ≤ j) :
    x.testBit j = false :=
  Nat.testBit_lt_two_pow (Nat.lt_of_lt_of_le hx (Nat.pow_le_pow_right (by norm_num) hij))

/-- Shifting an SATP value right by 60 recovers the high bits of the mode tag:
the page-frame-number part (below `2 ^ 52`) contributes nothing. -/
theorem mode_lor_shiftRight_60 (m : SatpMode) (x : Nat) (hx : x < 2 ^ 52) :
    (SatpField.to_usize m ||| x) >>> 60 = SatpField.to_usize m >>> 60 := by
  apply Nat.eq_of_testBit_eq
  intro i
  rw [Nat.testBit_shiftRight, Nat.testBit_shiftRight, Nat.testBit_lor,
    testBit_false_of_lt_of_le x 52 (60 + i) hx (by omega), Bool.or_false]

/-- Taking an SATP value mod `2 ^ 60` recovers the page-frame-number part:
the mode tag contributes nothing below position 60. -/
theorem mode_lor_mod_60 (m : SatpMode) (x : Nat) (hx : x < 2 ^ 52) :
    (SatpField.to_usize m ||| x) % 2 ^ 60 = x := by
  apply Nat.eq_of_testBit_eq
  intro i
  rw [Nat.testBit_mod_two_pow, Nat.testBit_lor]
  rcases Nat.lt_or_ge i 60 with hi | hi
  · rw [satpMode_testBit_low m i hi]
    simp [hi]
  · rw [testBit_false_of_lt_of_le x 52 i hx (by omega)]
    have hni : ¬ i < 60 := by omega
    simp [hni]

/-- C2: SATP composition is injective: for modes in {Bare, Sv39, Sv48} and
page-aligned usize bases, `(mode, base)` is uniquely recoverable from
`make_satp base mode`. -/
theorem make_satp_injective (m1 m2 : SatpMode) (p1 p2 : Nat)
    (hp1 : p1 < 2 ^ 64) (hp2 : p2 < 2 ^ 64)
    (ha1 : p1 % 4096 = 0) (ha2 : p2 % 4096 = 0)
    (heq : make_satp p1 m1 = make_satp p2 m2) :
    m1 = m2 ∧ p1 = p2 := by
  have e64 : (2 : Nat) ^ 64 = 18446744073709551616 := by norm_num
  have e52 : (2 : Nat) ^ 52 = 4503599627370496 := by norm_num
  have e12 : (2 : Nat) ^ 12 = 4096 := by norm_num
  rw [e64] at hp1 hp2
  have hx1 : p1 >>> 12 < 2 ^ 52 := by
    rw [Nat.shiftRight_eq_div_pow, e12, e52]
    omega
  have hx2 : p2 >>> 12 < 2 ^ 52 := by
    rw [Nat.shiftRight_eq_div_pow, e12, e52]
    omega
  unfold make_satp at heq
  have hm : m1 = m2 := by
    have h1 := mode_lor_shiftRight_60 m1 (p1 >>> 12) hx1
    have h2 := mode_lor_shiftRight_60 m2 (p2 >>> 12) hx2
    have hsh : SatpField.to_usize m1 >>> 60 = SatpField.to_usize m2 >>> 60 := by
      rw [← h1, ← h2, heq]
    cases m1 <;> cases m2 <;> first
      | rfl
      | exact absurd hsh (by decide)
  subst hm
  have hx : p1 >>> 12 = p2 >>> 12 := by
    have h1 := mode_lor_mod_60 m1 (p1 >>> 12) hx1
    have h2 := mode_lor_mod_60 m1 (p2 >>> 12) hx2
    rw [← h1, ← h2, heq]
  refine ⟨rfl, ?_⟩
  rw [Nat.shiftRight_eq_div_pow, Nat.shiftRight_eq_div_pow, e12] at hx
  omega

theorem make_satp_injective_witness :
    SatpMode.Sv39 = SatpMode.Sv39 ∧ (0x80010000 : Nat) = 0x80010000 :=
  make_satp_injective SatpMode.Sv39 SatpMode.Sv39 0x80010000 0x80010000
    (by decide) (by decide) (by decide) (by decide) rfl

/-- C7: in every SATP value built by `make_satp`, the mode bits and the
page-frame-number bits never overlap: for every mode and every usize
`pagetable`, `to_usize mode &&& (pagetable >>> 12) = 0`. -/
theorem satp_mode_frame_disjoint (m : SatpMode) (pagetable : Nat)
    (hpt : pagetable < 2 ^ 64) :
    SatpField.to_usize m &&& (pagetable >>> 12) = 0 ∧
    make_satp pagetable m = SatpField.to_usize m ||| (pagetable >>> 12) := by
  have e64 : (2 : Nat) ^ 64 = 18446744073709551616 := by norm_num
  have e52 : (2 : Nat) ^ 52 = 4503599627370496 := by norm_num
  have e12 : (2 : Nat) ^ 12 = 4096 := by norm_num
  rw [e64] at hpt
  have hx : pagetable >>> 12 < 2 ^ 52 := by
    rw [Nat.shiftRight_eq_div_pow, e12, e52]
    omega
  refine ⟨?_, rfl⟩
  apply Nat.zero_of_testBit_eq_false
  intro i
  rw [Nat.testBit_land]
  rcases Nat.lt_or_ge i 60 with hi | hi
  · rw [satpMode_testBit_low m i hi]
    simp
  · rw [testBit_false_of_lt_of_le (pagetable >>> 12) 52 i hx (by omega)]
    simp

theorem satp_mode_frame_disjoint_witness :
    SatpField.to_usize SatpMode.Sv39 &&& ((0x80010000 : Nat) >>> 12) = 0 ∧
    make_satp 0x80010000 SatpMode.Sv39 =
      SatpField.to_usize SatpMode.Sv39 ||| ((0x80010000 : Nat) >>> 12) :=
  satp_mode_frame_disjoint SatpMode.Sv39 0x80010000 (by decide)

/-- C9: the boot Privilege-Transition Sequencer runs exactly once per
hart: whatever a first invocation from `Reset` produces (supervisor
handoff or fatal halt), a second invocation on the same hart is rejected
by the explicit single-shot precondition guard — so there is also no
retry after a failure. -/
theorem boot_sequencer_single_shot (hart : Hart) (e1 e2 : Nat)
    (h0 : hart.seq = SeqState.Reset) (hart2 : Hart)
    (hrun : bootSequencer hart e1 = Except.ok hart2) :
    bootSequencer hart2 e2 = Except.error "boot sequencer already run on this hart" := by
  unfold bootSequencer at hrun
  rw [if_pos h0] at hrun
  unfold bootSequencer
  split at hrun
  · injection hrun with h2
    subst h2
    rw [if_neg (by simp)]
  · injection hrun with h2
    subst h2
    rw [if_neg (by simp)]

theorem boot_sequencer_single_shot_witness :
    Except.bind
      (bootSequencer { hartid := 0, seq := SeqState.Reset, regs := fun _ => 0 } 0x80000000)
      (fun h2 => bootSequencer h2 0x88000000) =
    Except.error "boot sequencer already run on this hart" := by
  cases hrun : bootSequencer { hartid := 0, seq := SeqState.Reset, regs := fun _ => 0 } 0x80000000 with
  | error e =>
      exfalso
      unfold bootSequencer at hrun
      rw [if_pos rfl] at hrun
      rw [show ValidAddress.new 0x80000000 = Except.ok { val := 0x80000000 } from rfl] at hrun
      exact Except.noConfusion hrun
  | ok h2 =>
      exact boot_sequencer_single_shot _ 0x80000000 0x88000000 rfl h2 hrun
